import Mathlib

/-!
Verification development for the mcai-whatconverts-uploader repository
(single source file `src/app.py`).

The program is a single-operator upload utility: it reads a tabular file
(all cells as plain text), detects which of two upstream export schemas
the header matches, validates mandatory columns, and writes the table to
a named worksheet of a remote spreadsheet in "replace" or "append" mode.
A separate module-level block normalizes a pandas DataFrame
(MCAI column remapping, then trimming of the `Quotable` and `Notes`
columns).

We embed the code shallowly:
  - a raw table is a `List (List String)`; row 0 is the header
    (`pd.read_csv(..., dtype=str, keep_default_na=False, header=None)`
    reads every cell as plain text);
  - the remote spreadsheet is an association list from worksheet title to
    worksheet; a worksheet records its created dimensions and the grid
    content that has been written;
  - Streamlit calls (`st.error`, `st.success`, `st.info`, `st.warning`)
    become emitted messages; `st.session_state.input_type` becomes an
    `Option String` field of the application state;
  - the pandas DataFrame of the module-level block is an association list
    from column name to column values (pandas stores columns; reading a
    file dedups duplicate column labels, so names are unique in practice).
    The module-level frame is read by the default `pd.read_excel` of line
    127, under which a blank or missing cell is NaN: the clean-step model
    therefore uses `Option String` cells (`none` for NaN), and
    `astype(str)` renders NaN as the literal string "nan". The
    standardization model uses the all-cells-present view of the frame;
  - Python exceptions (`KeyError`, `WorksheetNotFound`) become `Option` or
    explicit error branches.
-/

namespace App

/-- Schema kinds of the two supported upstream providers, `src/app.py`
lines 74-85. -/
inductive SchemaKind where
  | MCAI
  | WHATCONVERTS
  | UNKNOWN
deriving DecidableEq, Repr

/-- Marker columns whose joint presence classifies a header as MCAI,
`src/app.py` line 74. -/
def mcaiMarkers : List String :=
  ["Date Created (PST)", "Final AI Attribution", "Potential Lead?"]

/-- Marker columns whose joint presence classifies a header as
WhatConverts, `src/app.py` line 75. -/
def wcMarkers : List String :=
  ["Account", "Profile", "Quotable"]

/-- Schema detection, `src/app.py` lines 74-83: the `if is_mcai / elif
is_wc / else` ladder, with the MCAI check performed first. -/
def detect (header : List String) : SchemaKind :=
  if mcaiMarkers.all (fun x => x ∈ header) then SchemaKind.MCAI
  else if wcMarkers.all (fun x => x ∈ header) then SchemaKind.WHATCONVERTS
  else SchemaKind.UNKNOWN

/-- MODELLED FROM THE SPEC (section 4.1, quoted by claim C1): this is the
ordered-rule reference detector of claim C1, written from the words of the
claim and NOT from the source, to be compared with `detect`: rule 1, a
header containing all of "Date Created (PST)", "Final AI Attribution" and
"Potential Lead?" is MCAI regardless of extra columns or order; rule 2,
otherwise a header containing all of "Account", "Profile" and "Quotable"
is WHATCONVERTS; otherwise UNKNOWN; rule order makes MCAI win ties. -/
def detectSpec (header : List String) : SchemaKind :=
  if "Date Created (PST)" ∈ header ∧ "Final AI Attribution" ∈ header ∧
      "Potential Lead?" ∈ header then
    SchemaKind.MCAI
  else if "Account" ∈ header ∧ "Profile" ∈ header ∧ "Quotable" ∈ header then
    SchemaKind.WHATCONVERTS
  else
    SchemaKind.UNKNOWN

/-- Per-kind mandatory field lists, `src/app.py` lines 78 and 81.
`UNKNOWN` never reaches the validation step; its list is empty. -/
def mandatoryFields : SchemaKind → List String
  | SchemaKind.MCAI =>
      ["Date Created (PST)", "Lead ID", "Lead Type", "Answered?",
       "Sales Call Score"]
  | SchemaKind.WHATCONVERTS => ["Lead ID", "Account", "Profile"]
  | SchemaKind.UNKNOWN => []

/-- The string stored in `st.session_state.input_type` for a detected
kind, `src/app.py` lines 79 and 82. -/
def kindName : SchemaKind → String
  | SchemaKind.MCAI => "MCAI"
  | SchemaKind.WHATCONVERTS => "WHATCONVERTS"
  | SchemaKind.UNKNOWN => ""

/-- A worksheet of the remote spreadsheet: the dimensions it was created
with and the grid content written to it (row-major, starting at the
top-left cell A1). -/
structure Worksheet where
  nrows : Nat
  ncols : Nat
  data : List (List String)
deriving DecidableEq, Repr

/-- The remote spreadsheet: worksheets addressed by title. Titles are
unique (the backend rejects duplicate titles), so an association list
with first-match lookup is faithful. -/
abbrev Sheets := List (String × Worksheet)

/-- `spreadsheet.worksheet(name)`: first worksheet with the given title,
`none` models the `WorksheetNotFound` exception. -/
def lookupSheet (ss : Sheets) (name : String) : Option Worksheet :=
  (List.find? (fun p => p.1 = name) ss).map Prod.snd

/-- `spreadsheet.del_worksheet` of every worksheet with the given title
(at most one exists); used on `src/app.py` line 95 inside a
`try/except WorksheetNotFound: pass`, hence unconditional removal. -/
def deleteSheet (ss : Sheets) (name : String) : Sheets :=
  List.filter (fun p => ¬ p.1 = name) ss

/-- `spreadsheet.add_worksheet`: a new worksheet appended to the
spreadsheet, `src/app.py` line 100. -/
def addSheet (ss : Sheets) (name : String) (ws : Worksheet) : Sheets :=
  ss ++ [(name, ws)]

/-- Replace the content of the worksheet with the given title (used for
the in-place mutation performed by `ws.append_rows`). -/
def setSheet (ss : Sheets) (name : String) (ws : Worksheet) : Sheets :=
  List.map (fun p => if p.1 = name then (name, ws) else p) ss

/-- Messages surfaced to the operator by `st.error` / `st.success` /
`st.info` / `st.warning`. -/
inductive Msg where
  | error (text : String)
  | success (text : String)
  | info (text : String)
  | warning (text : String)
deriving DecidableEq, Repr

/-- Application state: the remote spreadsheet plus the global detection
state `st.session_state.input_type` (`src/app.py` lines 59-60). -/
structure AppState where
  sheets : Sheets
  inputType : Option String
deriving DecidableEq

/-- The `missing_fields` list of `src/app.py` line 87: the mandatory
fields absent from the header, in mandatory-list order. -/
def missingOf (mandatory header : List String) : List String :=
  mandatory.filter (fun f => ¬ f ∈ header)

/-- Second half of `upload_to_sheet` (`src/app.py` lines 87-111): the
mandatory-field check followed by the mode dispatch. `st` already holds
the updated `input_type`; `mandatory` is the list chosen for the detected
kind. Return value: the new state and the messages emitted in order.
Branch by branch: line 88-90, a nonempty missing list aborts with the
error message of line 89 (which contains only the joined missing names);
lines 92-102 (replace), delete any prior worksheet of this title, create
one sized (rows+10) x (cols+5), write the full table at the top-left;
lines 104-108 (append), the worksheet must exist (else the raised
`WorksheetNotFound` is caught by the handler of lines 110-111) and all
rows except the header are appended to the end; any other mode string
matches no branch and the function body ends silently. -/
def uploadChecked (st : AppState) (sheetName : String)
    (df : List (List String)) (mode : String) (mandatory : List String)
    (header : List String) : AppState × List Msg :=
  if missingOf mandatory header ≠ [] then
    (st, [Msg.error ("❌ Mandatory Fields Missing: " ++
        String.intercalate ", " (missingOf mandatory header))])
  else if mode = "replace" then
    (AppState.mk
      (addSheet (deleteSheet st.sheets sheetName) sheetName
        (Worksheet.mk (df.length + 10) ((df.headD []).length + 5) df))
      st.inputType,
     [Msg.success ("✅ " ++ sheetName ++ " replaced successfully.")])
  else if mode = "append" then
    match lookupSheet st.sheets sheetName with
    | none =>
        (st, [Msg.error ("❌ Failed to upload to " ++ sheetName ++
            ": WorksheetNotFound")])
    | some ws =>
        (AppState.mk
          (setSheet st.sheets sheetName
            (Worksheet.mk ws.nrows ws.ncols (ws.data ++ df.tail)))
          st.inputType,
         [Msg.success ("✅ Rows appended to " ++ sheetName ++ ".")])
  else
    (st, [])

/-- `upload_to_sheet(sheet_name, file, mode)`, `src/app.py` lines 65-111.
The file readers (lines 67-70) deliver every cell as plain text
(`dtype=str, keep_default_na=False`) with `header=None`, so `df` is the
raw grid and row 0 (`df.iloc[0]`) is the header; the readers fail on an
empty file, so `df` is nonempty whenever this point is reached. The
`if is_mcai / elif is_wc / else` ladder of lines 74-85 is the `detect`
match; lines 79 and 82 assign `st.session_state.input_type` before the
mandatory-field check runs. -/
def uploadToSheet (st : AppState) (sheetName : String)
    (df : List (List String)) (mode : String) : AppState × List Msg :=
  match detect (df.headD []) with
  | SchemaKind.MCAI =>
      uploadChecked (AppState.mk st.sheets (some "MCAI")) sheetName df mode
        (mandatoryFields SchemaKind.MCAI) (df.headD [])
  | SchemaKind.WHATCONVERTS =>
      uploadChecked (AppState.mk st.sheets (some "WHATCONVERTS")) sheetName df
        mode (mandatoryFields SchemaKind.WHATCONVERTS) (df.headD [])
  | SchemaKind.UNKNOWN =>
      (st, [Msg.error "❌ Unknown file format. Must be MCAI or WhatConverts export."])

/-- `show_input_type_badge`, `src/app.py` lines 116-122. -/
def showInputTypeBadge (inputType : Option String) : Msg :=
  if inputType = some "MCAI" then
    Msg.success "🧠 Detected Input Type: MCAI Export"
  else if inputType = some "WHATCONVERTS" then
    Msg.info "📞 Detected Input Type: WhatConverts Export"
  else
    Msg.warning "⚠ Input type not detected yet"

/-- Detection together with the mandatory-field validation succeed on this
header: exactly the condition under which `upload_to_sheet` reaches the
mode dispatch (lines 92-108). -/
def validationOK (header : List String) : Bool :=
  match detect header with
  | SchemaKind.UNKNOWN => false
  | k => (mandatoryFields k).all (fun f => f ∈ header)

/-- The pandas DataFrame of the module-level PROCESS UPLOADED FILE block
(`src/app.py` lines 126-177): an association list from column name to the
list of the values of that column (pandas is column-oriented; the file readers
dedup duplicate column labels, so names are unique in practice and
first-match lookup is faithful). Cells here are plain strings: the
all-cells-present view used for the STANDARDIZE DATA block; the
`DataFrameNaN` type below refines it with missing (NaN) cells, which the
default reader of line 127 produces, for the CLEAN DATA step. -/
abbrev DataFrame := List (String × List String)

/-- Column membership test, `name in df.columns`. -/
def hasCol (df : DataFrame) (c : String) : Bool :=
  df.any (fun p => p.1 = c)

/-- Column read `df[c]`; `none` models the `KeyError` Python raises when
the column is absent. -/
def getCol (df : DataFrame) (c : String) : Option (List String) :=
  (List.find? (fun p => p.1 = c) df).map Prod.snd

/-- Number of rows of the frame (`len(df)`): the length of any column. -/
def nRows (df : DataFrame) : Nat :=
  ((df.headD ("", [])).2).length

/-- Column write `df[c] = vals`: overwrite the existing column of that
name, or append a new column at the right end of the frame. -/
def setCol (df : DataFrame) (c : String) (vals : List String) : DataFrame :=
  if hasCol df c then
    df.map (fun p => if p.1 = c then (c, vals) else p)
  else
    df ++ [(c, vals)]

/-- The recurring statement pair `if c not in df.columns: df[c] = ""`
(`src/app.py` lines 147-151 and 165-169): create column `c` filled with
empty strings when it is absent. -/
def ensureCol (df : DataFrame) (c : String) : DataFrame :=
  if hasCol df c then df else setCol df c (List.replicate (nRows df) "")

/-- STANDARDIZE DATA, MCAI branch, `src/app.py` lines 143-159: create
`Quotable` and `Notes` empty if absent, overwrite `Quotable` from
`Potential Lead?` and `Notes` from `Final AI Attribution`, and populate
`Date` from `Date Created (PST)` when that column exists. A `none` result
models the `KeyError` raised when a read column is absent. -/
def standardizeMCAI (df : DataFrame) : Option DataFrame :=
  let df2 := ensureCol (ensureCol df "Quotable") "Notes"
  match getCol df2 "Potential Lead?" with
  | none => none
  | some pl =>
    let df3 := setCol df2 "Quotable" pl
    match getCol df3 "Final AI Attribution" with
    | none => none
    | some fai =>
      let df4 := setCol df3 "Notes" fai
      if hasCol df4 "Date Created (PST)" then
        match getCol df4 "Date Created (PST)" with
        | none => some df4
        | some d => some (setCol df4 "Date" d)
      else
        some df4

/-- STANDARDIZE DATA, WhatConverts branch, `src/app.py` lines 161-169:
make sure `Quotable` and `Notes` exist, creating them empty; no value
remapping. -/
def ensureWCCols (df : DataFrame) : DataFrame :=
  ensureCol (ensureCol df "Quotable") "Notes"

/-- The module-level frame with possibly missing cells. The frame of the
PROCESS UPLOADED FILE block is read by the DEFAULT
`pd.read_excel(uploaded_file)` of `src/app.py` line 127 (no `dtype=str`,
no `keep_default_na=False`), so a blank or missing cell arrives as NaN: a
cell is `Option String`, with `none` for NaN and `some s` for a present
string cell. -/
abbrev DataFrameNaN := List (String × List (Option String))

/-- Column membership test on the NaN-aware frame, `name in df.columns`. -/
def hasColNaN (df : DataFrameNaN) (c : String) : Bool :=
  df.any (fun p => p.1 = c)

/-- Column read `df[c]` on the NaN-aware frame; `none` models the
`KeyError` Python raises when the column is absent. -/
def getColNaN (df : DataFrameNaN) (c : String) : Option (List (Option String)) :=
  (List.find? (fun p => p.1 = c) df).map Prod.snd

/-- Column write `df[c] = vals` on the NaN-aware frame: overwrite the
existing column of that name, or append a new column at the right end. -/
def setColNaN (df : DataFrameNaN) (c : String) (vals : List (Option String)) :
    DataFrameNaN :=
  if hasColNaN df c then
    df.map (fun p => if p.1 = c then (c, vals) else p)
  else
    df ++ [(c, vals)]

/-- The per-cell effect of `Series.astype(str)`: a present string is kept
as is, while a NaN cell is rendered as the literal string "nan" (pandas
prints the float NaN), not as the empty string. -/
def astypeStr (c : Option String) : String :=
  match c with
  | none => "nan"
  | some s => s

/-- The effect of Python `str.strip()` (the per-cell action of
`.str.strip()`): drop leading and trailing whitespace characters. Written
structurally over the character list so that concrete instances
compute. -/
def stripStr (s : String) : String :=
  String.mk (((s.data.dropWhile Char.isWhitespace).reverse.dropWhile
    Char.isWhitespace).reverse)

/-- CLEAN DATA, `src/app.py` lines 174-175: coerce every value of the
`Quotable` and `Notes` columns to a string and strip leading and trailing
whitespace (`astype(str).str.strip()`). The coercion `astype(str)` turns
a NaN cell into the string "nan" before stripping; every cell is then
stripped with `stripStr`. A `none` result models the `KeyError` when a
column is absent. -/
def cleanDataNaN (df : DataFrameNaN) : Option DataFrameNaN :=
  match getColNaN df "Quotable" with
  | none => none
  | some q =>
    let df1 := setColNaN df "Quotable"
      (q.map (fun c => some (stripStr (astypeStr c))))
    match getColNaN df1 "Notes" with
    | none => none
    | some n =>
        some (setColNaN df1 "Notes"
          (n.map (fun c => some (stripStr (astypeStr c)))))

/-! Concrete inputs used to instantiate the theorems below. -/

/-- The empty remote spreadsheet with no detection state yet. -/
def emptyState : AppState := AppState.mk [] none

/-- An MCAI header carrying the three detection markers and the full
mandatory-field list. -/
def mcaiFullHeader : List String :=
  ["Date Created (PST)", "Final AI Attribution", "Potential Lead?",
   "Lead ID", "Lead Type", "Answered?", "Sales Call Score"]

/-- A two-row MCAI table: the full header plus one data row. -/
def mcaiTable : List (List String) :=
  [mcaiFullHeader,
   ["2024-01-01", "Google Ads", "Yes", "L1", "Phone Call", "Yes", "5"]]

/-- An MCAI-shaped header missing only the mandatory field
`Sales Call Score`. -/
def mcaiHeaderNoScore : List String :=
  ["Date Created (PST)", "Final AI Attribution", "Potential Lead?",
   "Lead ID", "Lead Type", "Answered?"]

/-- A WhatConverts header carrying its three detection markers and the
full mandatory-field list. -/
def wcFullHeader : List String :=
  ["Lead ID", "Account", "Profile", "Quotable"]

/-- A two-row WhatConverts table: header plus one data row. -/
def wcTable : List (List String) :=
  [wcFullHeader, ["W1", "Acme", "Main", "Yes"]]

/-- A one-column DataFrame for the MCAI normalization scenario: one row
with `Potential Lead?` = "Yes" and `Final AI Attribution` = "Google Ads". -/
def mcaiFrame : DataFrame :=
  [("Date Created (PST)", ["2024-01-01"]),
   ("Final AI Attribution", ["Google Ads"]),
   ("Potential Lead?", ["Yes"]),
   ("Lead ID", ["L1"])]

/-- A NaN-aware frame for the clean-data scenario: the `Quotable` column
holds one missing (NaN) cell and one padded value, the `Notes` column a
padded value and a present empty string. -/
def nanFrame : DataFrameNaN :=
  [("Quotable", [none, some "  Yes "]),
   ("Notes", [some " Google Ads", some ""])]

/-! Helper lemmas about the association-list operations. -/

theorem find?_replace_self {α : Type} (l : List (String × α)) (c : String)
    (v : α) (h : l.any (fun p => p.1 = c) = true) :
    List.find? (fun p => p.1 = c)
        (l.map (fun p => if p.1 = c then (c, v) else p)) = some (c, v) := by
  induction l with
  | nil => simp at h
  | cons hd tl ih =>
      by_cases hc : hd.1 = c
      · simp [List.find?, hc]
      · simp only [List.any_cons, Bool.or_eq_true, decide_eq_true_eq] at h
        rcases h with h | h
        · exact absurd h hc
        · simp [List.find?, hc, ih h]

theorem find?_replace_other {α : Type} (l : List (String × α)) (c c' : String)
    (v : α) (hne : ¬ c' = c) :
    List.find? (fun p => p.1 = c')
        (l.map (fun p => if p.1 = c then (c, v) else p))
      = List.find? (fun p => p.1 = c') l := by
  induction l with
  | nil => rfl
  | cons hd tl ih =>
      by_cases hc : hd.1 = c
      · have hcc : ¬ c = c' := fun h => hne h.symm
        simp [List.find?, hc, hcc, ih]
      · by_cases hc' : hd.1 = c'
        · simp [List.find?, hc, hc', hne]
        · simp [List.find?, hc, hc', ih]

theorem find?_none_of_not_any {α : Type} (l : List (String × α)) (c : String)
    (h : l.any (fun p => p.1 = c) = false) :
    List.find? (fun p => p.1 = c) l = none := by
  induction l with
  | nil => rfl
  | cons hd tl ih =>
      simp only [List.any_cons, Bool.or_eq_false_iff] at h
      have h1 : ¬ hd.1 = c := by simpa using h.1
      simp [List.find?, h1, ih h.2]

theorem getCol_setCol_self (df : DataFrame) (c : String) (v : List String) :
    getCol (setCol df c v) c = some v := by
  unfold getCol setCol
  by_cases h : hasCol df c = true
  · simp only [h, if_true]
    rw [find?_replace_self df c v h]
    rfl
  · have hf : hasCol df c = false := by
      cases hv : hasCol df c
      · rfl
      · exact absurd hv h
    simp only [hf, Bool.false_eq_true, if_false]
    unfold hasCol at hf
    rw [List.find?_append, find?_none_of_not_any df c hf]
    simp [List.find?]

theorem getCol_setCol_ne (df : DataFrame) (c c' : String) (v : List String)
    (hne : ¬ c' = c) :
    getCol (setCol df c v) c' = getCol df c' := by
  unfold getCol setCol
  by_cases h : hasCol df c = true
  · simp only [h, if_true]
    rw [find?_replace_other df c c' v hne]
  · have hf : hasCol df c = false := by
      cases hv : hasCol df c
      · rfl
      · exact absurd hv h
    simp only [hf, Bool.false_eq_true, if_false]
    rw [List.find?_append]
    have hcc : ¬ c = c' := fun hx => hne hx.symm
    simp [List.find?, hcc]

theorem setCol_of_not_hasCol (df : DataFrame) (c : String) (v : List String)
    (h : hasCol df c = false) : setCol df c v = df ++ [(c, v)] := by
  unfold setCol
  simp [h]

theorem hasCol_setCol_self (df : DataFrame) (c : String) (v : List String) :
    hasCol (setCol df c v) c = true := by
  unfold hasCol setCol
  by_cases h : hasCol df c = true
  · simp only [h, if_true]
    unfold hasCol at h
    simp only [List.any_eq_true, decide_eq_true_eq] at h ⊢
    obtain ⟨p, hp, hpc⟩ := h
    exact ⟨(c, v), List.mem_map.mpr ⟨p, hp, by simp [hpc]⟩, rfl⟩
  · have hf : hasCol df c = false := by
      cases hv : hasCol df c
      · rfl
      · exact absurd hv h
    simp only [hf, Bool.false_eq_true, if_false]
    simp [List.any_append]

theorem hasCol_setCol_ne (df : DataFrame) (c c' : String) (v : List String)
    (hne : ¬ c' = c) :
    hasCol (setCol df c v) c' = hasCol df c' := by
  unfold hasCol setCol
  by_cases h : hasCol df c = true
  · simp only [h, if_true, List.any_map]
    have hfun : ((fun p => decide (p.1 = c')) ∘
          fun p : String × List String => if p.1 = c then (c, v) else p)
        = (fun p : String × List String => decide (p.1 = c')) := by
      have hcc : ¬ c = c' := fun hx => hne hx.symm
      funext p
      by_cases hp : p.1 = c
      · simp [Function.comp, hp, hcc]
      · simp [Function.comp, hp]
    rw [hfun]
  · have hf : hasCol df c = false := by
      cases hv : hasCol df c
      · rfl
      · exact absurd hv h
    have hcc : ¬ c = c' := fun h => hne h.symm
    simp only [hf, Bool.false_eq_true, if_false, List.any_append]
    simp [hcc]

theorem deleteSheet_addSheet (ss : Sheets) (n : String) (ws : Worksheet) :
    deleteSheet (addSheet (deleteSheet ss n) n ws) n = deleteSheet ss n := by
  unfold deleteSheet addSheet
  rw [List.filter_append]
  have h1 : List.filter (fun p : String × Worksheet => ¬ p.1 = n) [(n, ws)]
      = [] := by simp
  rw [h1, List.append_nil]
  induction ss with
  | nil => rfl
  | cons hd tl ih =>
      by_cases h : hd.1 = n
      · simp [List.filter_cons, h, ih]
      · simp [List.filter_cons, h, ih]

theorem lookupSheet_addSheet_deleteSheet (ss : Sheets) (n : String)
    (ws : Worksheet) :
    lookupSheet (addSheet (deleteSheet ss n) n ws) n = some ws := by
  unfold lookupSheet addSheet deleteSheet
  rw [List.find?_append]
  have h1 : List.find? (fun p : String × Worksheet => p.1 = n)
      (List.filter (fun p => ¬ p.1 = n) ss) = none := by
    rw [List.find?_eq_none]
    intro x hx
    have hmem := (List.mem_filter.mp hx).2
    simp at hmem ⊢
    exact hmem
  rw [h1]
  simp [List.find?]

theorem lookupSheet_setSheet (ss : Sheets) (n : String) (ws : Worksheet) :
    lookupSheet (setSheet ss n ws) n
      = (lookupSheet ss n).map (fun _ => ws) := by
  unfold lookupSheet setSheet
  induction ss with
  | nil => rfl
  | cons hd tl ih =>
      by_cases h : hd.1 = n
      · rw [List.map_cons, if_pos h, List.find?_cons_of_pos _ (by simp),
          List.find?_cons_of_pos _ (by simp [h])]
        rfl
      · rw [List.map_cons, if_neg h, List.find?_cons_of_neg _ (by simp [h]),
          List.find?_cons_of_neg _ (by simp [h])]
        exact ih

theorem filter_not_mem_nil (l hdr : List String)
    (h : l.all (fun f => f ∈ hdr) = true) :
    l.filter (fun f => ¬ f ∈ hdr) = [] := by
  induction l with
  | nil => rfl
  | cons a t ih =>
      simp only [List.all_cons, Bool.and_eq_true, decide_eq_true_eq] at h
      rw [List.filter_cons]
      have ha : (decide ¬ a ∈ hdr) = false := by simp [h.1]
      simp only [ha, Bool.false_eq_true, if_false]
      exact ih h.2

theorem getCol_of_hasCol (df : DataFrame) (c : String)
    (h : hasCol df c = true) : ∃ v, getCol df c = some v := by
  unfold hasCol at h
  unfold getCol
  induction df with
  | nil => simp at h
  | cons hd tl ih =>
      by_cases hc : hd.1 = c
      · exact ⟨hd.2, by simp [List.find?, hc]⟩
      · simp only [List.any_cons, Bool.or_eq_true, decide_eq_true_eq] at h
        rcases h with h | h
        · exact absurd h hc
        · obtain ⟨v, hv⟩ := ih h
          refine ⟨v, ?_⟩
          simpa [List.find?, hc] using hv

theorem uploadChecked_missing (st : AppState) (name : String)
    (df : List (List String)) (mode : String) (mandatory header : List String)
    (h : missingOf mandatory header ≠ []) :
    uploadChecked st name df mode mandatory header
      = (st, [Msg.error ("❌ Mandatory Fields Missing: "
          ++ String.intercalate ", " (missingOf mandatory header))]) := by
  unfold uploadChecked
  rw [if_pos h]

theorem uploadChecked_replace (st : AppState) (name : String)
    (df : List (List String)) (mandatory header : List String)
    (h : missingOf mandatory header = []) :
    uploadChecked st name df "replace" mandatory header
      = (AppState.mk
          (addSheet (deleteSheet st.sheets name) name
            (Worksheet.mk (df.length + 10) ((df.headD []).length + 5) df))
          st.inputType,
         [Msg.success ("✅ " ++ name ++ " replaced successfully.")]) := by
  unfold uploadChecked
  rw [if_neg (fun hne => hne h), if_pos rfl]

theorem uploadChecked_append_found (st : AppState) (name : String)
    (df : List (List String)) (mandatory header : List String)
    (ws : Worksheet)
    (h : missingOf mandatory header = [])
    (hws : lookupSheet st.sheets name = some ws) :
    uploadChecked st name df "append" mandatory header
      = (AppState.mk
          (setSheet st.sheets name
            (Worksheet.mk ws.nrows ws.ncols (ws.data ++ df.tail)))
          st.inputType,
         [Msg.success ("✅ Rows appended to " ++ name ++ ".")]) := by
  unfold uploadChecked
  rw [if_neg (fun hne => hne h), if_neg (by decide), if_pos rfl, hws]

theorem uploadChecked_append_missing (st : AppState) (name : String)
    (df : List (List String)) (mandatory header : List String)
    (h : missingOf mandatory header = [])
    (hws : lookupSheet st.sheets name = none) :
    uploadChecked st name df "append" mandatory header
      = (st, [Msg.error ("❌ Failed to upload to " ++ name
          ++ ": WorksheetNotFound")]) := by
  unfold uploadChecked
  rw [if_neg (fun hne => hne h), if_neg (by decide), if_pos rfl, hws]

theorem uploadChecked_other_mode (st : AppState) (name : String)
    (df : List (List String)) (mode : String) (mandatory header : List String)
    (h : missingOf mandatory header = [])
    (hr : ¬ mode = "replace") (ha : ¬ mode = "append") :
    uploadChecked st name df mode mandatory header = (st, []) := by
  unfold uploadChecked
  rw [if_neg (fun hne => hne h), if_neg hr, if_neg ha]

theorem uploadToSheet_mcai (st : AppState) (name : String)
    (df : List (List String)) (mode : String)
    (h : detect (df.headD []) = SchemaKind.MCAI) :
    uploadToSheet st name df mode
      = uploadChecked (AppState.mk st.sheets (some "MCAI")) name df mode
          (mandatoryFields SchemaKind.MCAI) (df.headD []) := by
  unfold uploadToSheet
  rw [h]

theorem uploadToSheet_wc (st : AppState) (name : String)
    (df : List (List String)) (mode : String)
    (h : detect (df.headD []) = SchemaKind.WHATCONVERTS) :
    uploadToSheet st name df mode
      = uploadChecked (AppState.mk st.sheets (some "WHATCONVERTS")) name df
          mode (mandatoryFields SchemaKind.WHATCONVERTS) (df.headD []) := by
  unfold uploadToSheet
  rw [h]

theorem uploadToSheet_unknown (st : AppState) (name : String)
    (df : List (List String)) (mode : String)
    (h : detect (df.headD []) = SchemaKind.UNKNOWN) :
    uploadToSheet st name df mode
      = (st, [Msg.error "❌ Unknown file format. Must be MCAI or WhatConverts export."]) := by
  unfold uploadToSheet
  rw [h]

theorem validationOK_elim (header : List String)
    (h : validationOK header = true) :
    detect header ≠ SchemaKind.UNKNOWN ∧
    missingOf (mandatoryFields (detect header)) header = [] := by
  unfold validationOK at h
  cases hd : detect header with
  | MCAI =>
      rw [hd] at h
      exact ⟨by simp, filter_not_mem_nil _ _ h⟩
  | WHATCONVERTS =>
      rw [hd] at h
      exact ⟨by simp, filter_not_mem_nil _ _ h⟩
  | UNKNOWN =>
      rw [hd] at h
      simp at h

theorem getColNaN_setColNaN_self (df : DataFrameNaN) (c : String)
    (v : List (Option String)) :
    getColNaN (setColNaN df c v) c = some v := by
  unfold getColNaN setColNaN
  by_cases h : hasColNaN df c = true
  · simp only [h, if_true]
    rw [find?_replace_self df c v h]
    rfl
  · have hf : hasColNaN df c = false := by
      cases hv : hasColNaN df c
      · rfl
      · exact absurd hv h
    simp only [hf, Bool.false_eq_true, if_false]
    unfold hasColNaN at hf
    rw [List.find?_append, find?_none_of_not_any df c hf]
    simp [List.find?]

theorem getColNaN_setColNaN_ne (df : DataFrameNaN) (c c' : String)
    (v : List (Option String)) (hne : ¬ c' = c) :
    getColNaN (setColNaN df c v) c' = getColNaN df c' := by
  unfold getColNaN setColNaN
  by_cases h : hasColNaN df c = true
  · simp only [h, if_true]
    rw [find?_replace_other df c c' v hne]
  · have hf : hasColNaN df c = false := by
      cases hv : hasColNaN df c
      · rfl
      · exact absurd hv h
    simp only [hf, Bool.false_eq_true, if_false]
    rw [List.find?_append]
    have hcc : ¬ c = c' := fun hx => hne hx.symm
    simp [List.find?, hcc]

theorem getColNaN_of_hasColNaN (df : DataFrameNaN) (c : String)
    (h : hasColNaN df c = true) : ∃ v, getColNaN df c = some v := by
  unfold hasColNaN at h
  unfold getColNaN
  induction df with
  | nil => simp at h
  | cons hd tl ih =>
      by_cases hc : hd.1 = c
      · exact ⟨hd.2, by simp [List.find?, hc]⟩
      · simp only [List.any_cons, Bool.or_eq_true, decide_eq_true_eq] at h
        rcases h with h | h
        · exact absurd h hc
        · obtain ⟨v, hv⟩ := ih h
          refine ⟨v, ?_⟩
          simpa [List.find?, hc] using hv

theorem getCol_ensureCol_ne (df : DataFrame) (c c' : String)
    (hne : ¬ c' = c) : getCol (ensureCol df c) c' = getCol df c' := by
  unfold ensureCol
  by_cases h : hasCol df c = true
  · rw [if_pos h]
  · rw [if_neg h]
    exact getCol_setCol_ne df c c' _ hne

theorem hasCol_ensureCol_self (df : DataFrame) (c : String) :
    hasCol (ensureCol df c) c = true := by
  unfold ensureCol
  by_cases h : hasCol df c = true
  · rw [if_pos h]
    exact h
  · rw [if_neg h]
    exact hasCol_setCol_self df c _

theorem hasCol_ensureCol_ne (df : DataFrame) (c c' : String)
    (hne : ¬ c' = c) : hasCol (ensureCol df c) c' = hasCol df c' := by
  unfold ensureCol
  by_cases h : hasCol df c = true
  · rw [if_pos h]
  · rw [if_neg h]
    exact hasCol_setCol_ne df c c' _ hne

theorem all_of_missingOf_nil (l hdr : List String)
    (h : missingOf l hdr = []) : l.all (fun f => f ∈ hdr) = true := by
  unfold missingOf at h
  induction l with
  | nil => rfl
  | cons a t ih =>
      rw [List.filter_cons] at h
      by_cases ha : a ∈ hdr
      · have hda : (decide ¬ a ∈ hdr) = false := by simp [ha]
        rw [hda] at h
        simp only [Bool.false_eq_true, if_false] at h
        simp only [List.all_cons, Bool.and_eq_true, decide_eq_true_eq]
        exact ⟨ha, ih h⟩
      · have hda : (decide ¬ a ∈ hdr) = true := by simp [ha]
        rw [hda] at h
        simp at h

theorem missingOf_ne_nil (l hdr : List String)
    (h : l.all (fun f => f ∈ hdr) = false) : missingOf l hdr ≠ [] := by
  intro hnil
  rw [all_of_missingOf_nil l hdr hnil] at h
  exact Bool.true_eq_false.mp h

theorem validationOK_false_elim (header : List String)
    (h : validationOK header = false) :
    detect header = SchemaKind.UNKNOWN ∨
    missingOf (mandatoryFields (detect header)) header ≠ [] := by
  unfold validationOK at h
  cases hd : detect header with
  | MCAI =>
      rw [hd] at h
      exact Or.inr (missingOf_ne_nil _ _ h)
  | WHATCONVERTS =>
      rw [hd] at h
      exact Or.inr (missingOf_ne_nil _ _ h)
  | UNKNOWN => exact Or.inl rfl

/-- C1: the schema detector of `upload_to_sheet` equals the ordered-rule
reference definition: a header containing all three MCAI markers is
classified MCAI regardless of extra columns or order; otherwise a header
containing all three WhatConverts markers is classified WHATCONVERTS;
otherwise UNKNOWN; the rule order makes MCAI win whenever both marker
sets are present (tie-break, not an error). -/
theorem claim1_detect_equals_ordered_rules (header : List String) :
    detect header = detectSpec header := by
  have hbm : (mcaiMarkers.all (fun x => x ∈ header) = true)
      ↔ ("Date Created (PST)" ∈ header ∧ "Final AI Attribution" ∈ header ∧
          "Potential Lead?" ∈ header) := by
    simp [mcaiMarkers]
  have hbw : (wcMarkers.all (fun x => x ∈ header) = true)
      ↔ ("Account" ∈ header ∧ "Profile" ∈ header ∧ "Quotable" ∈ header) := by
    simp [wcMarkers]
  unfold detect detectSpec
  by_cases h1 : "Date Created (PST)" ∈ header ∧
      "Final AI Attribution" ∈ header ∧ "Potential Lead?" ∈ header
  · rw [if_pos (hbm.mpr h1), if_pos h1]
  · rw [if_neg (fun hb => h1 (hbm.mp hb)), if_neg h1]
    by_cases h2 : "Account" ∈ header ∧ "Profile" ∈ header ∧
        "Quotable" ∈ header
    · rw [if_pos (hbw.mpr h2), if_pos h2]
    · rw [if_neg (fun hb => h2 (hbw.mp hb)), if_neg h2]

/-- C6: for a header matching neither marker set, detection returns
UNKNOWN, the unknown-format error is surfaced, the operation returns with
no partial processing (the whole state, spreadsheet and detection flag,
is unchanged) and no write to the remote store is attempted. -/
theorem claim6_unknown_format_aborts (st : AppState) (name : String)
    (df : List (List String)) (mode : String)
    (hm : mcaiMarkers.all (fun x => x ∈ df.headD []) = false)
    (hw : wcMarkers.all (fun x => x ∈ df.headD []) = false) :
    detect (df.headD []) = SchemaKind.UNKNOWN ∧
    uploadToSheet st name df mode
      = (st, [Msg.error "❌ Unknown file format. Must be MCAI or WhatConverts export."]) := by
  have hd : detect (df.headD []) = SchemaKind.UNKNOWN := by
    unfold detect
    rw [if_neg (by rw [hm]; exact Bool.false_ne_true),
      if_neg (by rw [hw]; exact Bool.false_ne_true)]
  exact ⟨hd, uploadToSheet_unknown st name df mode hd⟩

/-- Witness for C6 at the header `["Lead ID", "Campaign"]`. -/
theorem claim6_witness :
    detect (([["Lead ID", "Campaign"], ["L1", "Search"]]
        : List (List String)).headD []) = SchemaKind.UNKNOWN ∧
    uploadToSheet emptyState "Leads" [["Lead ID", "Campaign"], ["L1", "Search"]] "replace"
      = (emptyState,
         [Msg.error "❌ Unknown file format. Must be MCAI or WhatConverts export."]) :=
  claim6_unknown_format_aborts emptyState "Leads"
    [["Lead ID", "Campaign"], ["L1", "Search"]] "replace"
    (by decide) (by decide)

/-- C10: with a mode string other than "replace" or "append", once
detection and the mandatory-field validation succeed, `upload_to_sheet`
performs no remote write and emits no message at all: a silent no-op. -/
theorem claim10_other_mode_silent (st : AppState) (name : String)
    (df : List (List String)) (mode : String)
    (hv : validationOK (df.headD []) = true)
    (hr : ¬ mode = "replace") (ha : ¬ mode = "append") :
    (uploadToSheet st name df mode).1.sheets = st.sheets ∧
    (uploadToSheet st name df mode).2 = [] := by
  obtain ⟨hne, hmiss⟩ := validationOK_elim _ hv
  cases hd : detect (df.headD []) with
  | UNKNOWN => exact absurd hd hne
  | MCAI =>
      rw [hd] at hmiss
      rw [uploadToSheet_mcai st name df mode hd,
        uploadChecked_other_mode _ _ _ _ _ _ hmiss hr ha]
      exact ⟨rfl, rfl⟩
  | WHATCONVERTS =>
      rw [hd] at hmiss
      rw [uploadToSheet_wc st name df mode hd,
        uploadChecked_other_mode _ _ _ _ _ _ hmiss hr ha]
      exact ⟨rfl, rfl⟩

/-- Witness for C10: a validated MCAI table uploaded with mode "update"
writes nothing and emits nothing. -/
theorem claim10_witness :
    validationOK (mcaiTable.headD []) = true ∧
    (uploadToSheet emptyState "Leads" mcaiTable "update").1.sheets
        = emptyState.sheets ∧
    (uploadToSheet emptyState "Leads" mcaiTable "update").2 = [] :=
  ⟨by decide,
   claim10_other_mode_silent emptyState "Leads" mcaiTable "update"
     (by decide) (by decide) (by decide)⟩

/-- C5: invariant of the upload operation: whenever the remote store is
changed at all (replace or append), the header contained all mandatory
fields of the detected schema kind; every path reaching a remote write
has first passed the mandatory-field check. -/
theorem claim5_write_implies_validated (st : AppState) (name : String)
    (df : List (List String)) (mode : String)
    (hchange : (uploadToSheet st name df mode).1.sheets ≠ st.sheets) :
    detect (df.headD []) ≠ SchemaKind.UNKNOWN ∧
    (mandatoryFields (detect (df.headD []))).all
        (fun f => f ∈ df.headD []) = true := by
  cases hd : detect (df.headD []) with
  | UNKNOWN =>
      rw [uploadToSheet_unknown st name df mode hd] at hchange
      exact absurd rfl hchange
  | MCAI =>
      refine ⟨by simp, ?_⟩
      by_cases hmiss : missingOf (mandatoryFields SchemaKind.MCAI)
          (df.headD []) = []
      · exact all_of_missingOf_nil _ _ hmiss
      · rw [uploadToSheet_mcai st name df mode hd,
          uploadChecked_missing _ _ _ _ _ _ hmiss] at hchange
        exact absurd rfl hchange
  | WHATCONVERTS =>
      refine ⟨by simp, ?_⟩
      by_cases hmiss : missingOf (mandatoryFields SchemaKind.WHATCONVERTS)
          (df.headD []) = []
      · exact all_of_missingOf_nil _ _ hmiss
      · rw [uploadToSheet_wc st name df mode hd,
          uploadChecked_missing _ _ _ _ _ _ hmiss] at hchange
        exact absurd rfl hchange

/-- Witness for C5: a replace upload of a full MCAI table changes the
store, and the theorem yields that its validation passed. -/
theorem claim5_witness :
    (uploadToSheet emptyState "Leads" mcaiTable "replace").1.sheets
        ≠ emptyState.sheets ∧
    (detect (mcaiTable.headD []) ≠ SchemaKind.UNKNOWN ∧
      (mandatoryFields (detect (mcaiTable.headD []))).all
          (fun f => f ∈ mcaiTable.headD []) = true) :=
  ⟨by decide,
   claim5_write_implies_validated emptyState "Leads" mcaiTable "replace"
     (by decide)⟩

/-- C3: in REPLACE mode, after detection and validation succeed, any
worksheet with the target name is deleted, a new worksheet sized to the
table row count plus 10 rows and column count plus 5 columns is
created, and the full table including the header row is written at the
top-left; uploading the same table twice in REPLACE mode to the same
sheet name yields identical results both times (same worksheet contents
and same messages, not a union). -/
theorem claim3_replace_semantics (st : AppState) (name : String)
    (df : List (List String))
    (hv : validationOK (df.headD []) = true) :
    (uploadToSheet st name df "replace").1.sheets
        = addSheet (deleteSheet st.sheets name) name
            (Worksheet.mk (df.length + 10) ((df.headD []).length + 5) df) ∧
    lookupSheet (uploadToSheet st name df "replace").1.sheets name
        = some (Worksheet.mk (df.length + 10) ((df.headD []).length + 5) df) ∧
    uploadToSheet (uploadToSheet st name df "replace").1 name df "replace"
        = uploadToSheet st name df "replace" := by
  obtain ⟨hne, hmiss⟩ := validationOK_elim _ hv
  cases hd : detect (df.headD []) with
  | UNKNOWN => exact absurd hd hne
  | MCAI =>
      rw [hd] at hmiss
      rw [uploadToSheet_mcai st name df "replace" hd,
        uploadChecked_replace _ _ _ _ _ hmiss]
      refine ⟨rfl, lookupSheet_addSheet_deleteSheet st.sheets name _, ?_⟩
      rw [uploadToSheet_mcai _ name df "replace" hd,
        uploadChecked_replace _ _ _ _ _ hmiss]
      rw [deleteSheet_addSheet st.sheets name _]
  | WHATCONVERTS =>
      rw [hd] at hmiss
      rw [uploadToSheet_wc st name df "replace" hd,
        uploadChecked_replace _ _ _ _ _ hmiss]
      refine ⟨rfl, lookupSheet_addSheet_deleteSheet st.sheets name _, ?_⟩
      rw [uploadToSheet_wc _ name df "replace" hd,
        uploadChecked_replace _ _ _ _ _ hmiss]
      rw [deleteSheet_addSheet st.sheets name _]

/-- Witness for C3 at the concrete MCAI table and an empty store. -/
theorem claim3_witness :
    validationOK (mcaiTable.headD []) = true ∧
    ((uploadToSheet emptyState "Leads" mcaiTable "replace").1.sheets
        = addSheet (deleteSheet emptyState.sheets "Leads") "Leads"
            (Worksheet.mk (mcaiTable.length + 10)
              ((mcaiTable.headD []).length + 5) mcaiTable) ∧
      lookupSheet (uploadToSheet emptyState "Leads" mcaiTable "replace").1.sheets
          "Leads"
        = some (Worksheet.mk (mcaiTable.length + 10)
            ((mcaiTable.headD []).length + 5) mcaiTable) ∧
      uploadToSheet (uploadToSheet emptyState "Leads" mcaiTable "replace").1
          "Leads" mcaiTable "replace"
        = uploadToSheet emptyState "Leads" mcaiTable "replace") :=
  ⟨by decide,
   claim3_replace_semantics emptyState "Leads" mcaiTable (by decide)⟩

/-- C4: in APPEND mode the target worksheet must already exist (a missing
worksheet yields the caught WorksheetNotFound error and no state change);
appending a table of N data rows to an existing worksheet holding M rows
appends exactly the non-header rows at the end, yielding M + N rows, with
the existing rows, header included, untouched. -/
theorem claim4_append_semantics (st : AppState) (name : String)
    (df : List (List String)) (ws : Worksheet)
    (hv : validationOK (df.headD []) = true)
    (hws : lookupSheet st.sheets name = some ws) :
    lookupSheet (uploadToSheet st name df "append").1.sheets name
        = some (Worksheet.mk ws.nrows ws.ncols (ws.data ++ df.tail)) ∧
    (ws.data ++ df.tail).length = ws.data.length + (df.length - 1) ∧
    (uploadToSheet st name df "append").2
        = [Msg.success ("✅ Rows appended to " ++ name ++ ".")] ∧
    (∀ st' : AppState, lookupSheet st'.sheets name = none →
        (uploadToSheet st' name df "append").1.sheets = st'.sheets ∧
        (uploadToSheet st' name df "append").2
          = [Msg.error ("❌ Failed to upload to " ++ name
              ++ ": WorksheetNotFound")]) := by
  obtain ⟨hne, hmiss⟩ := validationOK_elim _ hv
  have hlen : (ws.data ++ df.tail).length
      = ws.data.length + (df.length - 1) := by
    rw [List.length_append, List.length_tail]
  cases hd : detect (df.headD []) with
  | UNKNOWN => exact absurd hd hne
  | MCAI =>
      rw [hd] at hmiss
      rw [uploadToSheet_mcai st name df "append" hd,
        uploadChecked_append_found (AppState.mk st.sheets (some "MCAI")) name
          df (mandatoryFields SchemaKind.MCAI) (df.headD []) ws hmiss hws]
      refine ⟨?_, hlen, rfl, ?_⟩
      · show lookupSheet (setSheet st.sheets name _) name = _
        rw [lookupSheet_setSheet st.sheets name _, hws]
        rfl
      · intro st' hnone
        rw [uploadToSheet_mcai st' name df "append" hd,
          uploadChecked_append_missing (AppState.mk st'.sheets (some "MCAI"))
            name df (mandatoryFields SchemaKind.MCAI) (df.headD []) hmiss
            hnone]
        exact ⟨rfl, rfl⟩
  | WHATCONVERTS =>
      rw [hd] at hmiss
      rw [uploadToSheet_wc st name df "append" hd,
        uploadChecked_append_found (AppState.mk st.sheets (some "WHATCONVERTS"))
          name df (mandatoryFields SchemaKind.WHATCONVERTS) (df.headD []) ws
          hmiss hws]
      refine ⟨?_, hlen, rfl, ?_⟩
      · show lookupSheet (setSheet st.sheets name _) name = _
        rw [lookupSheet_setSheet st.sheets name _, hws]
        rfl
      · intro st' hnone
        rw [uploadToSheet_wc st' name df "append" hd,
          uploadChecked_append_missing
            (AppState.mk st'.sheets (some "WHATCONVERTS")) name df
            (mandatoryFields SchemaKind.WHATCONVERTS) (df.headD []) hmiss
            hnone]
        exact ⟨rfl, rfl⟩

/-- Witness for C4: appending the WhatConverts table (one data row) to a
worksheet holding two rows yields three rows and the success message,
while the same append against a store without the worksheet changes
nothing and reports the failure. -/
theorem claim4_witness :
    validationOK (wcTable.headD []) = true ∧
    lookupSheet
        (AppState.mk
          [("Leads", Worksheet.mk 12 9 [wcFullHeader, ["W0", "Acme", "Main", "No"]])]
          none).sheets "Leads"
      = some (Worksheet.mk 12 9 [wcFullHeader, ["W0", "Acme", "Main", "No"]]) ∧
    (lookupSheet
        (uploadToSheet
          (AppState.mk
            [("Leads", Worksheet.mk 12 9 [wcFullHeader, ["W0", "Acme", "Main", "No"]])]
            none)
          "Leads" wcTable "append").1.sheets "Leads"
      = some (Worksheet.mk 12 9
          ([wcFullHeader, ["W0", "Acme", "Main", "No"]] ++ wcTable.tail)) ∧
    ([wcFullHeader, ["W0", "Acme", "Main", "No"]] ++ wcTable.tail).length
      = [wcFullHeader, ["W0", "Acme", "Main", "No"]].length + (wcTable.length - 1) ∧
    (uploadToSheet
        (AppState.mk
          [("Leads", Worksheet.mk 12 9 [wcFullHeader, ["W0", "Acme", "Main", "No"]])]
          none)
        "Leads" wcTable "append").2
      = [Msg.success ("✅ Rows appended to " ++ "Leads" ++ ".")] ∧
    (∀ st' : AppState, lookupSheet st'.sheets "Leads" = none →
        (uploadToSheet st' "Leads" wcTable "append").1.sheets = st'.sheets ∧
        (uploadToSheet st' "Leads" wcTable "append").2
          = [Msg.error ("❌ Failed to upload to " ++ "Leads"
              ++ ": WorksheetNotFound")])) :=
  ⟨by decide, by decide,
   claim4_append_semantics
     (AppState.mk
       [("Leads", Worksheet.mk 12 9 [wcFullHeader, ["W0", "Acme", "Main", "No"]])]
       none)
     "Leads" wcTable
     (Worksheet.mk 12 9 [wcFullHeader, ["W0", "Acme", "Main", "No"]])
     (by decide) (by decide)⟩

/-- C7 counterexample: the claim is false on the code in two places. The
per-kind mandatory-field list is NOT a superset of the detection markers
("Final AI Attribution" and "Potential Lead?" are MCAI markers but absent
from the MCAI mandatory list, and "Quotable" is a WhatConverts marker
absent from its mandatory list); and the missing-field rejection message
does not name the targeted sheet: uploading the MCAI-shaped header that
lacks only "Sales Call Score" to the sheet "Leads" and to the sheet
"Attribution Report" emits the identical message, which is exactly
"Mandatory Fields Missing: Sales Call Score" with no sheet name in it. -/
theorem claim7_counterexample :
    ("Final AI Attribution" ∈ mcaiMarkers ∧
        ¬ "Final AI Attribution" ∈ mandatoryFields SchemaKind.MCAI) ∧
    ("Potential Lead?" ∈ mcaiMarkers ∧
        ¬ "Potential Lead?" ∈ mandatoryFields SchemaKind.MCAI) ∧
    ("Quotable" ∈ wcMarkers ∧
        ¬ "Quotable" ∈ mandatoryFields SchemaKind.WHATCONVERTS) ∧
    detect mcaiHeaderNoScore = SchemaKind.MCAI ∧
    (uploadToSheet emptyState "Leads" [mcaiHeaderNoScore] "replace").2
      = (uploadToSheet emptyState "Attribution Report" [mcaiHeaderNoScore]
          "replace").2 ∧
    (uploadToSheet emptyState "Leads" [mcaiHeaderNoScore] "replace").2
      = [Msg.error "❌ Mandatory Fields Missing: Sales Call Score"] := by
  decide

/-- C7 as amended: validation checks the fixed per-kind mandatory-field
list (MCAI: Date Created (PST), Lead ID, Lead Type, Answered?, Sales Call
Score; WhatConverts: Lead ID, Account, Profile), which is not a superset
of the detection markers; whenever any mandatory field is absent from the
header the operation aborts with no write and reports the list of missing
field names (the message does not include the targeted sheet name); an
MCAI-shaped header missing only "Sales Call Score" is rejected with a
message listing exactly "Sales Call Score". -/
theorem claim7_amended_missing_fields_abort (st : AppState) (name : String)
    (df : List (List String)) (mode : String)
    (hk : detect (df.headD []) ≠ SchemaKind.UNKNOWN)
    (hm : missingOf (mandatoryFields (detect (df.headD [])))
        (df.headD []) ≠ []) :
    (uploadToSheet st name df mode).1.sheets = st.sheets ∧
    (uploadToSheet st name df mode).2
      = [Msg.error ("❌ Mandatory Fields Missing: "
          ++ String.intercalate ", "
            (missingOf (mandatoryFields (detect (df.headD [])))
              (df.headD [])))] := by
  cases hd : detect (df.headD []) with
  | UNKNOWN => exact absurd hd hk
  | MCAI =>
      rw [hd] at hm
      rw [uploadToSheet_mcai st name df mode hd,
        uploadChecked_missing _ _ _ _ _ _ hm]
      exact ⟨rfl, rfl⟩
  | WHATCONVERTS =>
      rw [hd] at hm
      rw [uploadToSheet_wc st name df mode hd,
        uploadChecked_missing _ _ _ _ _ _ hm]
      exact ⟨rfl, rfl⟩

/-- Witness for the amended C7: the MCAI-shaped header missing only
"Sales Call Score" aborts the upload with the message listing exactly
that field. -/
theorem claim7_amended_witness :
    detect (([mcaiHeaderNoScore] : List (List String)).headD [])
        ≠ SchemaKind.UNKNOWN ∧
    missingOf
        (mandatoryFields
          (detect (([mcaiHeaderNoScore] : List (List String)).headD [])))
        (([mcaiHeaderNoScore] : List (List String)).headD []) ≠ [] ∧
    ((uploadToSheet emptyState "Leads" [mcaiHeaderNoScore] "replace").1.sheets
        = emptyState.sheets ∧
      (uploadToSheet emptyState "Leads" [mcaiHeaderNoScore] "replace").2
        = [Msg.error ("❌ Mandatory Fields Missing: "
            ++ String.intercalate ", "
              (missingOf
                (mandatoryFields
                  (detect (([mcaiHeaderNoScore] : List (List String)).headD [])))
                (([mcaiHeaderNoScore] : List (List String)).headD [])))]) :=
  ⟨by decide, by decide,
   claim7_amended_missing_fields_abort emptyState "Leads" [mcaiHeaderNoScore]
     "replace" (by decide) (by decide)⟩

/-- C9: `st.session_state.input_type` is assigned as soon as the schema
is classified, before the mandatory-field check; an upload rejected for
missing mandatory fields still changes the detected-type state, and the
badge afterwards shows the detected kind even though nothing was
written. -/
theorem claim9_input_type_set_despite_rejection (st : AppState)
    (name : String) (df : List (List String)) (mode : String)
    (hk : detect (df.headD []) ≠ SchemaKind.UNKNOWN)
    (hm : missingOf (mandatoryFields (detect (df.headD [])))
        (df.headD []) ≠ []) :
    (uploadToSheet st name df mode).1.inputType
        = some (kindName (detect (df.headD []))) ∧
    (uploadToSheet st name df mode).1.sheets = st.sheets ∧
    (detect (df.headD []) = SchemaKind.MCAI →
      showInputTypeBadge (uploadToSheet st name df mode).1.inputType
        = Msg.success "🧠 Detected Input Type: MCAI Export") ∧
    (detect (df.headD []) = SchemaKind.WHATCONVERTS →
      showInputTypeBadge (uploadToSheet st name df mode).1.inputType
        = Msg.info "📞 Detected Input Type: WhatConverts Export") := by
  cases hd : detect (df.headD []) with
  | UNKNOWN => exact absurd hd hk
  | MCAI =>
      rw [hd] at hm
      rw [uploadToSheet_mcai st name df mode hd,
        uploadChecked_missing _ _ _ _ _ _ hm]
      exact ⟨rfl, rfl, fun _ => rfl, fun hcontra => absurd hcontra (by simp)⟩
  | WHATCONVERTS =>
      rw [hd] at hm
      rw [uploadToSheet_wc st name df mode hd,
        uploadChecked_missing _ _ _ _ _ _ hm]
      exact ⟨rfl, rfl, fun hcontra => absurd hcontra (by simp), fun _ => rfl⟩

/-- Witness for C9: the rejected MCAI-shaped upload leaves the store
untouched, yet afterwards the detection state is "MCAI" and the badge
reports an MCAI export. -/
theorem claim9_witness :
    detect (([mcaiHeaderNoScore] : List (List String)).headD [])
        ≠ SchemaKind.UNKNOWN ∧
    ((uploadToSheet emptyState "Leads" [mcaiHeaderNoScore] "replace").1.inputType
        = some (kindName
            (detect (([mcaiHeaderNoScore] : List (List String)).headD []))) ∧
      (uploadToSheet emptyState "Leads" [mcaiHeaderNoScore] "replace").1.sheets
        = emptyState.sheets ∧
      (detect (([mcaiHeaderNoScore] : List (List String)).headD [])
            = SchemaKind.MCAI →
        showInputTypeBadge
            (uploadToSheet emptyState "Leads" [mcaiHeaderNoScore] "replace").1.inputType
          = Msg.success "🧠 Detected Input Type: MCAI Export") ∧
      (detect (([mcaiHeaderNoScore] : List (List String)).headD [])
            = SchemaKind.WHATCONVERTS →
        showInputTypeBadge
            (uploadToSheet emptyState "Leads" [mcaiHeaderNoScore] "replace").1.inputType
          = Msg.info "📞 Detected Input Type: WhatConverts Export")) :=
  ⟨by decide,
   claim9_input_type_set_despite_rejection emptyState "Leads"
     [mcaiHeaderNoScore] "replace" (by decide) (by decide)⟩

/-- C2: for an MCAI-classified table (one whose columns include the MCAI
source fields), the standardization block ensures `Quotable` and `Notes`
columns exist, overwrites `Quotable` row-wise with the `Potential Lead?`
column and `Notes` row-wise with the `Final AI Attribution` column, and,
when a `Date Created (PST)` column exists, populates a `Date` column with
its value; in particular a row with `Potential Lead?` = "Yes" and
`Final AI Attribution` = "Google Ads" ends with `Quotable` = "Yes" and
`Notes` = "Google Ads". -/
theorem claim2_mcai_standardization (df : DataFrame)
    (hpl : hasCol df "Potential Lead?" = true)
    (hfai : hasCol df "Final AI Attribution" = true) :
    ∃ out, standardizeMCAI df = some out ∧
      hasCol out "Quotable" = true ∧ hasCol out "Notes" = true ∧
      getCol out "Quotable" = getCol df "Potential Lead?" ∧
      getCol out "Notes" = getCol df "Final AI Attribution" ∧
      (hasCol df "Date Created (PST)" = true →
        hasCol out "Date" = true ∧
        getCol out "Date" = getCol df "Date Created (PST)") := by
  obtain ⟨pl, hpl'⟩ := getCol_of_hasCol df "Potential Lead?" hpl
  obtain ⟨fai, hfai'⟩ := getCol_of_hasCol df "Final AI Attribution" hfai
  have hplE : getCol (ensureCol (ensureCol df "Quotable") "Notes")
      "Potential Lead?" = some pl := by
    rw [getCol_ensureCol_ne _ "Notes" "Potential Lead?" (by decide),
      getCol_ensureCol_ne _ "Quotable" "Potential Lead?" (by decide), hpl']
  have hfai3 : getCol
      (setCol (ensureCol (ensureCol df "Quotable") "Notes") "Quotable" pl)
      "Final AI Attribution" = some fai := by
    rw [getCol_setCol_ne _ "Quotable" "Final AI Attribution" pl (by decide),
      getCol_ensureCol_ne _ "Notes" "Final AI Attribution" (by decide),
      getCol_ensureCol_ne _ "Quotable" "Final AI Attribution" (by decide),
      hfai']
  have hq4 : hasCol
      (setCol (setCol (ensureCol (ensureCol df "Quotable") "Notes")
        "Quotable" pl) "Notes" fai) "Quotable" = true := by
    rw [hasCol_setCol_ne _ "Notes" "Quotable" fai (by decide)]
    exact hasCol_setCol_self _ "Quotable" pl
  have hn4 : hasCol
      (setCol (setCol (ensureCol (ensureCol df "Quotable") "Notes")
        "Quotable" pl) "Notes" fai) "Notes" = true :=
    hasCol_setCol_self _ "Notes" fai
  have hgq4 : getCol
      (setCol (setCol (ensureCol (ensureCol df "Quotable") "Notes")
        "Quotable" pl) "Notes" fai) "Quotable" = some pl := by
    rw [getCol_setCol_ne _ "Notes" "Quotable" fai (by decide)]
    exact getCol_setCol_self _ "Quotable" pl
  have hgn4 : getCol
      (setCol (setCol (ensureCol (ensureCol df "Quotable") "Notes")
        "Quotable" pl) "Notes" fai) "Notes" = some fai :=
    getCol_setCol_self _ "Notes" fai
  have hdc4 : hasCol
      (setCol (setCol (ensureCol (ensureCol df "Quotable") "Notes")
        "Quotable" pl) "Notes" fai) "Date Created (PST)"
      = hasCol df "Date Created (PST)" := by
    rw [hasCol_setCol_ne _ "Notes" "Date Created (PST)" fai (by decide),
      hasCol_setCol_ne _ "Quotable" "Date Created (PST)" pl (by decide),
      hasCol_ensureCol_ne _ "Notes" "Date Created (PST)" (by decide),
      hasCol_ensureCol_ne _ "Quotable" "Date Created (PST)" (by decide)]
  simp only [standardizeMCAI, hplE, hfai3]
  by_cases hdc : hasCol df "Date Created (PST)" = true
  · obtain ⟨d, hd'⟩ := getCol_of_hasCol df "Date Created (PST)" hdc
    have hgd4 : getCol
        (setCol (setCol (ensureCol (ensureCol df "Quotable") "Notes")
          "Quotable" pl) "Notes" fai) "Date Created (PST)" = some d := by
      rw [getCol_setCol_ne _ "Notes" "Date Created (PST)" fai (by decide),
        getCol_setCol_ne _ "Quotable" "Date Created (PST)" pl (by decide),
        getCol_ensureCol_ne _ "Notes" "Date Created (PST)" (by decide),
        getCol_ensureCol_ne _ "Quotable" "Date Created (PST)" (by decide),
        hd']
    rw [hdc] at hdc4
    simp only [hdc4, if_true, hgd4]
    refine ⟨_, rfl, ?_, ?_, ?_, ?_, fun _ => ⟨?_, ?_⟩⟩
    · rw [hasCol_setCol_ne _ "Date" "Quotable" d (by decide)]
      exact hq4
    · rw [hasCol_setCol_ne _ "Date" "Notes" d (by decide)]
      exact hn4
    · rw [getCol_setCol_ne _ "Date" "Quotable" d (by decide), hgq4, hpl']
    · rw [getCol_setCol_ne _ "Date" "Notes" d (by decide), hgn4, hfai']
    · exact hasCol_setCol_self _ "Date" d
    · rw [getCol_setCol_self _ "Date" d, hd']
  · have hdcf : hasCol df "Date Created (PST)" = false := by
      cases hv : hasCol df "Date Created (PST)"
      · rfl
      · exact absurd hv hdc
    rw [hdcf] at hdc4
    simp only [hdc4, Bool.false_eq_true, if_false]
    exact ⟨_, rfl, hq4, hn4, hgq4.trans hpl'.symm, hgn4.trans hfai'.symm,
      fun hcontra => absurd hcontra hdc⟩

/-- Witness for C2 at the concrete one-row MCAI frame whose row has
`Potential Lead?` = "Yes" and `Final AI Attribution` = "Google Ads". -/
theorem claim2_witness :
    hasCol mcaiFrame "Potential Lead?" = true ∧
    getCol mcaiFrame "Potential Lead?" = some ["Yes"] ∧
    getCol mcaiFrame "Final AI Attribution" = some ["Google Ads"] ∧
    (∃ out, standardizeMCAI mcaiFrame = some out ∧
      hasCol out "Quotable" = true ∧ hasCol out "Notes" = true ∧
      getCol out "Quotable" = getCol mcaiFrame "Potential Lead?" ∧
      getCol out "Notes" = getCol mcaiFrame "Final AI Attribution" ∧
      (hasCol mcaiFrame "Date Created (PST)" = true →
        hasCol out "Date" = true ∧
        getCol out "Date" = getCol mcaiFrame "Date Created (PST)")) :=
  ⟨by decide, by decide, by decide,
   claim2_mcai_standardization mcaiFrame (by decide) (by decide)⟩

/-- C8 counterexample: the claim is false on the code. The module-level
frame is read by the DEFAULT `pd.read_excel` (line 127), so a blank or
missing cell arrives as NaN, and `astype(str)` at lines 174-175 renders
NaN as the literal string "nan" before stripping. At the concrete frame
whose `Quotable` column holds a missing cell, the clean step yields the
null-marker string "nan" for that cell, which is not the empty string,
refuting the clause that an empty or missing value becomes the empty
string and never a null marker. -/
theorem claim8_counterexample :
    cleanDataNaN nanFrame
      = some [("Quotable", [some "nan", some "Yes"]),
              ("Notes", [some "Google Ads", some ""])] ∧
    ¬ (("nan" : String) = "") := by
  decide

/-- C8 as amended: the final CLEAN DATA step (reached by both schema
kinds) coerces every value of the `Quotable` and `Notes` columns to a
string and strips leading and trailing whitespace; a present value is
kept as is by the coercion (so a present empty string stays the empty
string and a column created empty by normalization stays empty), but a
missing cell (NaN under the default reader of line 127) is coerced to
the literal string "nan" - a null marker - rather than to the empty
string. -/
theorem claim8_amended_clean_astype (df : DataFrameNaN)
    (hq : hasColNaN df "Quotable" = true)
    (hn : hasColNaN df "Notes" = true) :
    ∃ out, cleanDataNaN df = some out ∧
      getColNaN out "Quotable"
        = (getColNaN df "Quotable").map
            (fun col => col.map (fun c => some (stripStr (astypeStr c)))) ∧
      getColNaN out "Notes"
        = (getColNaN df "Notes").map
            (fun col => col.map (fun c => some (stripStr (astypeStr c)))) ∧
      (∀ v : String, astypeStr (some v) = v) ∧
      astypeStr none = "nan" := by
  obtain ⟨q, hq'⟩ := getColNaN_of_hasColNaN df "Quotable" hq
  obtain ⟨n0, hn'⟩ := getColNaN_of_hasColNaN df "Notes" hn
  have hn1 : getColNaN (setColNaN df "Quotable"
      (q.map (fun c => some (stripStr (astypeStr c))))) "Notes" = some n0 := by
    rw [getColNaN_setColNaN_ne _ "Quotable" "Notes" _ (by decide), hn']
  simp only [cleanDataNaN, hq', hn1]
  refine ⟨_, rfl, ?_, ?_, fun v => rfl, rfl⟩
  · rw [getColNaN_setColNaN_ne _ "Notes" "Quotable" _ (by decide),
      getColNaN_setColNaN_self _ "Quotable" _]
    rfl
  · rw [getColNaN_setColNaN_self _ "Notes" _, hn']
    rfl

/-- Witness for the amended C8 at the concrete NaN-aware frame: padded
values are trimmed, the present empty string stays empty, and the missing
cell becomes "nan". -/
theorem claim8_amended_witness :
    hasColNaN nanFrame "Quotable" = true ∧
    hasColNaN nanFrame "Notes" = true ∧
    (∃ out, cleanDataNaN nanFrame = some out ∧
      getColNaN out "Quotable"
        = (getColNaN nanFrame "Quotable").map
            (fun col => col.map (fun c => some (stripStr (astypeStr c)))) ∧
      getColNaN out "Notes"
        = (getColNaN nanFrame "Notes").map
            (fun col => col.map (fun c => some (stripStr (astypeStr c)))) ∧
      (∀ v : String, astypeStr (some v) = v) ∧
      astypeStr none = "nan") :=
  ⟨by decide, by decide,
   claim8_amended_clean_astype nanFrame (by decide) (by decide)⟩

end App
